import Mathlib

/-!
Verification development for the gdo-api repository: a shallow embedding of
the session/credit/auth backend (src/function_app.py, src/src/db/*,
src/src/auth/middleware.py) together with theorems settling the frozen
claims about it.  UUIDs are modelled as natural numbers, timestamps as
integers counting seconds, and SQL tables as Lean lists.  Each definition
carries a pointer to the source location it embeds.
-/

namespace GdoApi

/-! ## Auth gate (src/src/auth/middleware.py) -/

/-- Embeds the AuthError exception of src/src/auth/middleware.py:25-31:
a message together with an HTTP status code (default 401 at the raisers). -/
structure AuthError where
  message : String
  status_code : Nat
deriving Repr, DecidableEq

/-- The JWT claim set built by create_token (middleware.py:99-103):
subject, issued-at and expiry.  Absent claims are `none` (used to model
tokens produced elsewhere that miss required claims). -/
structure JwtPayload where
  sub : Option String
  iat : Option Int
  exp : Option Int
deriving Repr, DecidableEq

/-- A signed token.  The HS256 signature computed by jwt.encode over the
payload with the shared secret is modelled symbolically as the pair of the
signing secret and the signed payload: two signatures agree exactly when
both the secret and the signed payload agree, which is the idealised-MAC
(symbolic crypto) reading of HMAC-SHA256. -/
structure Jwt where
  payload : JwtPayload
  sig : String × JwtPayload
deriving Repr, DecidableEq

/-- middleware.py:21. -/
def TOKEN_EXPIRY_HOURS : Nat := 1

/-- Embeds create_token (middleware.py:84-108) with extra_claims = None, as
at every call site relevant to the claims.  An empty configured secret is
the fatal 500-class configuration error; otherwise the payload carries
sub = user_id, iat = now, exp = now + 1 hour, signed with the secret. -/
def create_token (secret : String) (user_id : String) (now : Int) : Except AuthError Jwt :=
  if secret = "" then
    Except.error { message := "JWT_SIGNING_KEY not configured", status_code := 500 }
  else
    let payload : JwtPayload :=
      { sub := some user_id, iat := some now,
        exp := some (now + (TOKEN_EXPIRY_HOURS : Int) * 3600) }
    Except.ok { payload := payload, sig := (secret, payload) }

/-- Embeds validate_token (middleware.py:51-81).  jwt.decode first verifies
the signature (mismatch raises InvalidTokenError -> "Invalid token", 401),
then the required claims sub/exp/iat (missing -> InvalidTokenError), then
expiry (exp <= now raises ExpiredSignatureError -> "Token has expired").
An empty configured secret raises the 500-class AuthError first. -/
def validate_token (secret : String) (token : Jwt) (now : Int) : Except AuthError JwtPayload :=
  if secret = "" then
    Except.error { message := "Authentication not configured", status_code := 500 }
  else if token.sig = (secret, token.payload) then
    match token.payload.sub, token.payload.iat, token.payload.exp with
    | some _, some _, some e =>
      if e ≤ now then Except.error { message := "Token has expired", status_code := 401 }
      else Except.ok token.payload
    | _, _, _ => Except.error { message := "Invalid token", status_code := 401 }
  else
    Except.error { message := "Invalid token", status_code := 401 }

/-! ## JSON response values

The handlers in src/function_app.py respond with json.dumps of Python dict
literals.  Bodies are modelled as association lists in the order the dict
literal writes its keys; the nesting in this code base is at most one
object deep ("user" in the login response, "session" in the create-session
response), so values are either primitives, one flat sub-object, or a
token. -/

/-- A primitive JSON value. -/
inductive JPrim where
  | s (v : String)
  | n (v : Int)
  | b (v : Bool)
  | null
deriving Repr, DecidableEq

/-- A JSON value as emitted by the handlers: a primitive, one flat object,
or a serialised JWT (the "token" entry of the login body). -/
inductive JVal where
  | p (v : JPrim)
  | o (fields : List (String × JPrim))
  | jwt (t : Jwt)
deriving Repr, DecidableEq

def js (v : String) : JVal := JVal.p (JPrim.s v)

def jn (v : Int) : JVal := JVal.p (JPrim.n v)

def jb (v : Bool) : JVal := JVal.p (JPrim.b v)

def jnull : JVal := JVal.p JPrim.null

/-- `x.isoformat() if x else None` applied to an optional string. -/
def jStrOpt : Option String → JVal
  | some v => js v
  | none => jnull

/-- `x.isoformat() if x else None` applied to an optional timestamp. -/
def jIntOpt : Option Int → JVal
  | some v => jn v
  | none => jnull

/-- An HTTP response: status code plus JSON body. -/
structure HttpResp where
  status_code : Nat
  body : List (String × JVal)
deriving Repr, DecidableEq

/-- The {"status": "error", "message": msg} body used by every error
branch of the handlers. -/
def errBody (msg : String) : List (String × JVal) :=
  [("status", js "error"), ("message", js msg)]

/-- Looks a field up in a response body. -/
def bodyGet (body : List (String × JVal)) (key : String) : Option JVal :=
  (body.find? (fun kv => kv.1 == key)).map (fun kv => kv.2)

/-! ## Users, password hashing and registration
(src/src/db/users.py, src/function_app.py register/login) -/

/-- A stored password credential string, classified by how
bcrypt.checkpw(password, stored) (users.py:21) behaves on it: a
well-formed bcrypt hash of some password, or a malformed string on which
checkpw raises.  A well-formed bcrypt hash string is 60 characters long,
hence never falsy in Python. -/
inductive StoredHash where
  | bcrypt (password : String)
  | malformed (raw : String)
deriving Repr, DecidableEq

/-- bcrypt.checkpw: matches the candidate against a well-formed hash,
raises (modelled as Except.error) on a malformed one. -/
def bcrypt_checkpw (password : String) (stored : StoredHash) : Except String Bool :=
  match stored with
  | StoredHash.bcrypt p => Except.ok (password == p)
  | StoredHash.malformed _ => Except.error "Invalid salt"

/-- Embeds verify_password (src/src/db/users.py:18-23): checkpw inside
try/except returning False on any exception. -/
def verify_password (password : String) (password_hash : StoredHash) : Bool :=
  match bcrypt_checkpw password password_hash with
  | Except.ok b => b
  | Except.error _ => false

/-- Python truthiness of the stored password_hash column, as tested by
`not user.get("password_hash")` (function_app.py:283): NULL and the empty
string are falsy; a well-formed bcrypt hash (60 characters) never is. -/
def hashFalsy : Option StoredHash → Bool
  | none => true
  | some (StoredHash.bcrypt _) => false
  | some (StoredHash.malformed raw) => raw == ""

/-- A row of the users table, restricted to the columns the
register/login handlers touch. -/
structure UserRec where
  id : Nat
  email : String
  password_hash : Option StoredHash
  display_name : Option String
  account_type : String
  last_login : Option Int
deriving Repr, DecidableEq

/-- The users table plus a source of fresh ids (uuid.uuid4() at
users.py:48 modelled as a counter). -/
structure UsersState where
  users : List UserRec
  next_id : Nat
deriving Repr, DecidableEq

/-- Python str.lower, written over the character list so that it
evaluates inside the kernel. -/
def pyLower (s : String) : String := String.mk (s.data.map Char.toLower)

/-- Python str.strip: leading and trailing whitespace removed. -/
def pyStrip (s : String) : String :=
  String.mk (((s.data.dropWhile Char.isWhitespace).reverse.dropWhile Char.isWhitespace).reverse)

/-- Python `c in s` for a single-character needle. -/
def pyContains (s : String) (c : Char) : Bool := s.data.contains c

/-- `email.strip().lower()` as applied by the handlers and by
get_user_by_email (users.py:90). -/
def normalize_email (e : String) : String := pyLower (pyStrip e)

/-- Embeds get_user_by_email (users.py:69-93): SELECT ... WHERE email =
lowered/stripped email. -/
def get_user_by_email (st : UsersState) (email : String) : Option UserRec :=
  st.users.find? (fun u => u.email == normalize_email email)

/-- Embeds create_user (users.py:26-66): INSERT of a fresh row whose
password_hash is the bcrypt hash of the given password.  Its parameters
are email, password, display_name, wp_user_id — and nothing else. -/
def create_user (st : UsersState) (email : String) (password : String)
    (display_name : Option String) : UserRec × UsersState :=
  let u : UserRec :=
    { id := st.next_id, email := normalize_email email,
      password_hash := some (StoredHash.bcrypt password),
      display_name := display_name, account_type := "freemium", last_login := none }
  (u, { users := st.users ++ [u], next_id := st.next_id + 1 })

/-- The keyword-accepting parameter names of create_user
(src/src/db/users.py:26-31). -/
def create_user_param_names : List String :=
  ["email", "password", "display_name", "wp_user_id"]

/-- The extra keyword arguments the register handler passes to create_user
at src/function_app.py:207 beyond the three positional ones. -/
def register_create_user_keywords : List String := ["store_history"]

/-- Python call semantics: a keyword argument that names no parameter of
the callee raises TypeError.  True here because "store_history" is not
among create_user's parameters. -/
def register_create_user_raises : Bool :=
  register_create_user_keywords.any (fun k => !(create_user_param_names.contains k))

/-- The parsed register request body after the .get defaults of
function_app.py:166-169. -/
structure RegisterBody where
  email : String
  password : String
  display_name : Option String
  store_history_consent : Bool
deriving Repr, DecidableEq

/-- Embeds the register handler (src/function_app.py:141-233): validation
(empty email, "@"/"." membership, password length ≥ 8), the duplicate
check, then the create_user call.  That call passes the keyword argument
store_history which create_user does not accept, so it raises TypeError,
which the blanket `except Exception` handler turns into a 500; the 201
branch is reachable only if the call did not raise. -/
def register (st : UsersState) (body : RegisterBody) : HttpResp × UsersState :=
  let email := normalize_email body.email
  if email = "" then
    ({ status_code := 400, body := errBody "Email is required" }, st)
  else if ¬ pyContains email '@' ∨ ¬ pyContains email '.' then
    ({ status_code := 400, body := errBody "Invalid email format" }, st)
  else if body.password.length < 8 then
    ({ status_code := 400, body := errBody "Password must be at least 8 characters" }, st)
  else if (get_user_by_email st email).isSome then
    ({ status_code := 409, body := errBody "Email already registered" }, st)
  else if register_create_user_raises then
    ({ status_code := 500, body := errBody "Registration failed" }, st)
  else
    let (u, st1) := create_user st email body.password body.display_name
    ({ status_code := 201,
       body := [("status", js "ok"), ("user_id", js (toString u.id)),
                ("message", js "Registration successful")] }, st1)

/-- Embeds update_last_login (users.py:210-218). -/
def update_last_login (st : UsersState) (user_id : Nat) (now : Int) : UsersState :=
  { st with users := st.users.map (fun u =>
      if u.id == user_id then { u with last_login := some now } else u) }

/-- Embeds the login handler (src/function_app.py:238-320): missing
fields → 400; unknown email → 401; a falsy (NULL/empty) stored hash or a
failed verify_password → 401 "Invalid email or password"; otherwise
last_login is updated, a token minted (an AuthError from a missing signing
secret falls into the blanket handler → 500 "Login failed") and 200
returned with token and user object. -/
def login (st : UsersState) (secret : String) (email password : String) (now : Int) :
    HttpResp × UsersState :=
  if normalize_email email = "" ∨ password = "" then
    ({ status_code := 400, body := errBody "Email and password are required" }, st)
  else
    match get_user_by_email st (normalize_email email) with
    | none => ({ status_code := 401, body := errBody "Invalid email or password" }, st)
    | some u =>
      if hashFalsy u.password_hash then
        ({ status_code := 401, body := errBody "Invalid email or password" }, st)
      else
        match u.password_hash with
        | none => ({ status_code := 401, body := errBody "Invalid email or password" }, st)
        | some h =>
          if ¬ verify_password password h then
            ({ status_code := 401, body := errBody "Invalid email or password" }, st)
          else
            let st1 := update_last_login st u.id now
            match create_token secret (toString u.id) now with
            | Except.error _ =>
              ({ status_code := 500, body := errBody "Login failed" }, st1)
            | Except.ok t =>
              ({ status_code := 200,
                 body := [("token", JVal.jwt t),
                          ("expires_in", jn ((TOKEN_EXPIRY_HOURS : Int) * 3600)),
                          ("token_type", js "Bearer"),
                          ("user", JVal.o
                            [("id", JPrim.s (toString u.id)),
                             ("email", JPrim.s u.email),
                             ("display_name", match u.display_name with
                               | some d => JPrim.s d
                               | none => JPrim.null),
                             ("account_type", JPrim.s u.account_type)])] }, st1)

/-! ## Session lifecycle (src/src/db/sessions.py, src/function_app.py) -/

/-- A row of the sessions table, restricted to the columns the
get/end/create session operations touch.  created_at is NOT NULL in the
schema (end_session subtracts it without a guard, sessions.py:238). -/
structure SessionRec where
  id : Nat
  user_id : Nat
  mode : String
  session_type : Option String
  duration_minutes : Nat
  status : String
  created_at : Int
  expires_at : Option Int
  ended_at : Option Int
  updated_at : Option Int
deriving Repr, DecidableEq

/-- Embeds get_session_by_id (sessions.py:248-273): SELECT ... WHERE id. -/
def get_session_by_id (db : List SessionRec) (session_id : Nat) : Option SessionRec :=
  db.find? (fun s => s.id == session_id)

/-- Embeds update_session_status (sessions.py:276-300): UPDATE sessions
SET status, updated_at = NOW() WHERE id. -/
def update_session_status (db : List SessionRec) (session_id : Nat)
    (status : String) (now : Int) : List SessionRec :=
  db.map (fun s =>
    if s.id == session_id then { s with status := status, updated_at := some now } else s)

/-- Embeds end_session (sessions.py:214-245): an unconditional UPDATE
setting mode and status to "ended" and stamping ended_at, with no guard on
the previous status; RETURNING feeds the {session_id, status,
duration_used_seconds} result, where the duration is wall-clock time since
creation. -/
def end_session (db : List SessionRec) (session_id : Nat) (now : Int) :
    Option (List (String × JVal)) × List SessionRec :=
  match db.find? (fun s => s.id == session_id) with
  | none => (none, db)
  | some s =>
    let db1 := db.map (fun t =>
      if t.id == session_id then
        { t with mode := "ended", status := "ended",
                 ended_at := some now, updated_at := some now }
      else t)
    (some [("session_id", js (toString s.id)), ("status", js "ended"),
           ("duration_used_seconds", jn (now - s.created_at))], db1)

/-- `expires_at and now >= expires_at` (function_app.py:816): a non-NULL
expiry that the wall clock has reached. -/
def expires_passed (expires_at : Option Int) (now : Int) : Bool :=
  match expires_at with
  | some e => decide (now ≥ e)
  | none => false

/-- Embeds the GET /sessions/{id} handler (src/function_app.py:745-849)
after authentication and UUID parsing: 404 on unknown id, 403 on an
ownership mismatch; a still-"active" session whose expiry has passed is
switched to "expired" in storage as a side effect of the read;
remaining_seconds is max(0, expires_at - now) for an active session and 0
otherwise, and an expired response carries the extra message field.  The
handler's local status variable is resolved per branch: in the
lazy-expiry branch it is "expired" (so remaining_seconds is 0, the
message is appended and the status update is written), otherwise it is
the stored status (so the message appears exactly when the stored status
is already "expired" and nothing is written). -/
def get_session_endpoint (db : List SessionRec) (user_id session_id : Nat) (now : Int) :
    HttpResp × List SessionRec :=
  match get_session_by_id db session_id with
  | none => ({ status_code := 404, body := errBody "Session not found" }, db)
  | some s =>
    if s.user_id ≠ user_id then
      ({ status_code := 403, body := errBody "Not authorized" }, db)
    else if s.status = "active" ∧ expires_passed s.expires_at now = true then
      ({ status_code := 200,
         body := [("session_id", js (toString s.id)), ("status", js "expired"),
                  ("session_type", jStrOpt s.session_type),
                  ("remaining_seconds", jn 0),
                  ("expires_at", jIntOpt s.expires_at),
                  ("started_at", jn s.created_at),
                  ("message", js "Session has expired")] },
       update_session_status db session_id "expired" now)
    else
      ({ status_code := 200,
         body := [("session_id", js (toString s.id)), ("status", js s.status),
                  ("session_type", jStrOpt s.session_type),
                  ("remaining_seconds",
                   jn (match s.expires_at with
                       | some e => if s.status = "active" then max 0 (e - now) else 0
                       | none => 0)),
                  ("expires_at", jIntOpt s.expires_at),
                  ("started_at", jn s.created_at)] ++
                 (if s.status = "expired"
                  then [("message", js "Session has expired")] else []) },
       db)

/-- Embeds the POST /sessions/{id}/end handler
(src/function_app.py:855-938) after authentication and UUID parsing: 404
on unknown id, 403 on ownership mismatch, 400 only when the stored status
is already "ended" — any other status, including "expired", proceeds to
end_session. -/
def end_session_endpoint (db : List SessionRec) (user_id session_id : Nat) (now : Int) :
    HttpResp × List SessionRec :=
  match get_session_by_id db session_id with
  | none => ({ status_code := 404, body := errBody "Session not found" }, db)
  | some s =>
    if s.user_id ≠ user_id then
      ({ status_code := 403, body := errBody "Not authorized" }, db)
    else if s.status = "ended" then
      ({ status_code := 400, body := errBody "Session already ended" }, db)
    else
      match end_session db session_id now with
      | (none, db1) => ({ status_code := 500, body := errBody "Failed to end session" }, db1)
      | (some result, db1) => ({ status_code := 200, body := result }, db1)

/-! ## Credit ledger (src/src/db/credits.py plus the stored SQL functions) -/

/-- A user's credit counters: the freemium allowance and usage kept on the
users row (§3 of the spec) and the paid credits granted and consumed. -/
structure CreditState where
  freemium_limit : Nat
  freemium_used : Nat
  paid_total : Nat
  paid_used : Nat
deriving Repr, DecidableEq

def free_remaining (c : CreditState) : Nat := c.freemium_limit - c.freemium_used

def paid_remaining (c : CreditState) : Nat := c.paid_total - c.paid_used

def total_available (c : CreditState) : Nat := free_remaining c + paid_remaining c

/-- The row shape returned by the balance query (credits.py:28-33). -/
structure CreditsInfo where
  free_remaining : Nat
  paid_remaining : Nat
  total_available : Nat
deriving Repr, DecidableEq

/-- Modelled from the spec: the stored SQL function get_user_credits($1)
selected by src/src/db/credits.py:24 is not under src/.  Per §4.1 it is a
pure read reporting the free, paid and total balances. -/
def get_user_credits (c : CreditState) : CreditsInfo :=
  { free_remaining := free_remaining c, paid_remaining := paid_remaining c,
    total_available := total_available c }

/-- The row shape consume_session_credit returns (credits.py:68-73). -/
structure ConsumeResult where
  success : Bool
  session_type : Option String
  duration_minutes : Option Nat
  message : String
deriving Repr, DecidableEq

/-- Modelled from the spec: the stored SQL function
use_session_with_duration($1, $2) selected by src/src/db/credits.py:62 is
not under src/.  Per §4.1 and §5 it is a single atomic
compare-and-decrement that prefers a free credit (a 5-minute freemium
session) over a paid one (a 45-minute paid session) and, when no credit of
either kind remains, reports failure with no side effects. -/
def use_session_with_duration (c : CreditState) : ConsumeResult × CreditState :=
  if free_remaining c > 0 then
    ({ success := true, session_type := some "freemium", duration_minutes := some 5,
       message := "Free session" },
     { c with freemium_used := c.freemium_used + 1 })
  else if paid_remaining c > 0 then
    ({ success := true, session_type := some "paid", duration_minutes := some 45,
       message := "Paid session" },
     { c with paid_used := c.paid_used + 1 })
  else
    ({ success := false, session_type := none, duration_minutes := none,
       message := "No credits available" }, c)

/-- Embeds consume_session_credit (src/src/db/credits.py:42-80): a single
call of the atomic stored function, whose row is passed through
unchanged. -/
def consume_session_credit (c : CreditState) : ConsumeResult × CreditState :=
  use_session_with_duration c

/-- The per-user application state the session-creation endpoint touches:
the credit counters, the sessions table and the fresh-id source. -/
structure AppState where
  credits : CreditState
  sessions : List SessionRec
  next_session_id : Nat
deriving Repr, DecidableEq

/-- Embeds create_session (src/src/db/sessions.py:140-184): INSERT of a
fresh row with mode "intake", status "active" and
expires_at = created_at + duration_minutes minutes. -/
def create_session (st : AppState) (user_id : Nat) (session_type : String)
    (duration_minutes : Nat) (now : Int) : SessionRec × AppState :=
  let s : SessionRec :=
    { id := st.next_session_id, user_id := user_id, mode := "intake",
      session_type := some session_type, duration_minutes := duration_minutes,
      status := "active", created_at := now,
      expires_at := some (now + (duration_minutes : Int) * 60),
      ended_at := none, updated_at := none }
  (s, { st with sessions := st.sessions ++ [s],
                next_session_id := st.next_session_id + 1 })

/-- Embeds the POST /sessions handler (src/function_app.py:632-739) after
authentication and UUID parsing: consume a credit atomically; on failure
re-read the balances and answer 402 with error NO_CREDITS and the
remaining counts, creating no session; on success create the session and
answer 201 (a NULL type or duration from the stored function would make
create_session raise, caught by the blanket handler as 500). -/
def create_session_endpoint (st : AppState) (user_id : Nat) (now : Int) :
    HttpResp × AppState :=
  let (res, credits1) := consume_session_credit st.credits
  let st1 := { st with credits := credits1 }
  if res.success = false then
    let cr := get_user_credits credits1
    ({ status_code := 402,
       body := [("error", js "NO_CREDITS"),
                ("message", js "No sessions available. Please purchase more."),
                ("free_remaining", jn (cr.free_remaining : Int)),
                ("paid_remaining", jn (cr.paid_remaining : Int))] }, st1)
  else
    match res.session_type, res.duration_minutes with
    | some stype, some dur =>
      let (s, st2) := create_session st1 user_id stype dur now
      ({ status_code := 201,
         body := [("status", js "ok"),
                  ("session", JVal.o
                    [("id", JPrim.s (toString s.id)),
                     ("mode", JPrim.s s.mode),
                     ("session_type", JPrim.s stype),
                     ("duration_minutes", JPrim.n (dur : Int)),
                     ("started_at", JPrim.n s.created_at),
                     ("expires_at", match s.expires_at with
                       | some e => JPrim.n e
                       | none => JPrim.null),
                     ("status", JPrim.s s.status)])] }, st2)
    | _, _ => ({ status_code := 500, body := errBody "Failed to create session" }, st1)

/-! ## Entitlements and paid-credit grants (src/src/db/credits.py:83-153) -/

/-- A row of the entitlements table. -/
structure Entitlement where
  id : Nat
  user_id : Nat
  source : String
  sessions_total : Nat
  order_reference : Option String
  valid_until : Option Int
deriving Repr, DecidableEq

/-- The entitlements table plus the fresh-id source (uuid.uuid4() at
credits.py:125 modelled as a counter). -/
structure EntState where
  entitlements : List Entitlement
  next_id : Nat
deriving Repr, DecidableEq

/-- The dict add_paid_credits returns: on the repeat path
(credits.py:117-121) it carries sessions_added = 0 and no new_balance key
(modelled as none); on the insert path (credits.py:148-153) it carries the
granted count and the re-read total balance. -/
structure AddCreditsResult where
  entitlement_id : Nat
  sessions_added : Nat
  new_balance : Option Nat
  already_processed : Bool
deriving Repr, DecidableEq

/-- Modelled from the spec: the total_available computed by the stored SQL
function get_user_credits (not under src/) as re-read at credits.py:141;
over this state fragment, which carries no consumption counters, it is the
total of the user's granted entitlement sessions. -/
def entitlements_total (st : EntState) (user_id : Nat) : Nat :=
  (st.entitlements.filter (fun e => e.user_id == user_id)).foldl
    (fun acc e => acc + e.sessions_total) 0

/-- Embeds add_paid_credits (src/src/db/credits.py:83-153): the
idempotency lookup runs only under Python's truthiness guard
`if order_reference:` (credits.py:107), so a None — or an empty-string —
reference skips it.  When the lookup runs and some entitlement already
carries the reference, the call returns that entitlement's id with
sessions_added = 0 and already_processed = true and inserts nothing;
otherwise it inserts a fresh entitlement (valid_until = now + valid_days
days when given, storing the order_reference as supplied, empty string
included) and returns the granted count with the re-read balance. -/
def add_paid_credits (st : EntState) (user_id : Nat) (sessions_count : Nat)
    (source : String) (order_reference : Option String) (valid_days : Option Nat)
    (now : Int) : AddCreditsResult × EntState :=
  let insert : AddCreditsResult × EntState :=
    let e : Entitlement :=
      { id := st.next_id, user_id := user_id, source := source,
        sessions_total := sessions_count, order_reference := order_reference,
        valid_until := valid_days.map (fun d => now + (d : Int) * 86400) }
    let st1 : EntState :=
      { entitlements := st.entitlements ++ [e], next_id := st.next_id + 1 }
    ({ entitlement_id := e.id, sessions_added := sessions_count,
       new_balance := some (entitlements_total st1 user_id),
       already_processed := false }, st1)
  match order_reference with
  | none => insert
  | some r =>
    if r = "" then insert
    else
      match st.entitlements.find? (fun e => e.order_reference == some r) with
      | some e =>
        ({ entitlement_id := e.id, sessions_added := 0, new_balance := none,
           already_processed := true }, st)
      | none => insert

/-! ## History retention preferences (spec §4.3; the db functions are
named by src/function_app.py:52-53 but defined nowhere under src/) -/

/-- The preference record returned to the endpoints
(function_app.py:1030-1034). -/
structure UserPrefs where
  store_history : Bool
  store_history_changed_at : Option Int
  history_deletion_scheduled_at : Option Int
deriving Repr, DecidableEq

/-- 30 days, per §4.3 and the endpoint docstring (function_app.py:1068). -/
def HISTORY_GRACE_PERIOD_SECONDS : Int := 30 * 86400

/-- Modelled from the spec: update_user_preferences, imported by
src/function_app.py:53 from src.db, is defined nowhere under src/.  Per
§4.3 and the endpoint docstring (function_app.py:1067-1069): a true→false
change schedules deletion at now + the 30-day grace period, a false→true
change cancels any scheduled deletion, the change time is recorded, and
the updated record is returned.  A call that does not flip the flag leaves
the schedule untouched. -/
def update_user_preferences (p : UserPrefs) (store_history : Bool) (now : Int) : UserPrefs :=
  if p.store_history ∧ ¬ store_history then
    { store_history := false, store_history_changed_at := some now,
      history_deletion_scheduled_at := some (now + HISTORY_GRACE_PERIOD_SECONDS) }
  else if ¬ p.store_history ∧ store_history then
    { store_history := true, store_history_changed_at := some now,
      history_deletion_scheduled_at := none }
  else
    p

/-- Embeds the PATCH /users/me/preferences handler
(src/function_app.py:1051-1132) after authentication and UUID parsing:
400 when the body lacks store_history or it is not a boolean, 404 for an
unknown user, otherwise the preference update with the updated state in
the 200 body. -/
def update_user_preferences_endpoint (prefs : Option UserPrefs)
    (body_store_history : Option JVal) (now : Int) : HttpResp × Option UserPrefs :=
  match body_store_history with
  | none => ({ status_code := 400, body := errBody "store_history field is required" }, prefs)
  | some v =>
    match v with
    | JVal.p (JPrim.b b) =>
      match prefs with
      | none => ({ status_code := 404, body := errBody "User not found" }, none)
      | some p =>
        let p1 := update_user_preferences p b now
        ({ status_code := 200,
           body := [("store_history", jb p1.store_history),
                    ("store_history_changed_at", jIntOpt p1.store_history_changed_at),
                    ("history_deletion_scheduled_at",
                     jIntOpt p1.history_deletion_scheduled_at)] }, some p1)
    | _ => ({ status_code := 400, body := errBody "store_history must be a boolean" }, prefs)

/-! ## Module imports (src/function_app.py:34-59 vs src/src/db/__init__.py) -/

/-- The names src/function_app.py:34-59 imports from src.db, in source
order. -/
def function_app_db_import_names : List String :=
  ["create_user", "get_user_by_email", "get_user_by_id", "get_user_by_reset_token",
   "update_last_login", "update_user_password", "update_user_profile",
   "set_password_reset_token", "save_session_summary", "get_user_sessions",
   "create_session", "get_session_by_id", "update_session_status", "end_session",
   "get_user_credits", "consume_session_credit", "sync_wordpress_user",
   "get_user_preferences", "update_user_preferences", "get_user_sessions_for_history",
   "get_session_messages", "delete_user_history", "get_users_pending_deletion",
   "clear_deletion_schedule"]

/-- The attributes `from src.db import name` can resolve: the names bound
by the body of src/src/db/__init__.py:1-18 (its imports from .postgres,
.users and .sessions) plus the three submodules the import machinery
attaches to the package. -/
def db_package_bound_names : List String :=
  ["get_pool", "close_pool", "create_user", "get_user_by_email", "get_user_by_id",
   "get_user_by_wp_id", "get_user_by_reset_token", "get_or_create_user",
   "verify_user_email", "update_user_password", "update_user_profile",
   "update_last_login", "set_password_reset_token", "sync_wordpress_user",
   "save_session_summary", "get_user_sessions", "create_session",
   "postgres", "users", "sessions"]

/-- The imported names the package cannot resolve; the first of them makes
`from src.db import (...)` raise ImportError, so the application module
fails to load. -/
def missing_db_imports : List String :=
  function_app_db_import_names.filter (fun n => !(db_package_bound_names.contains n))

/-- Whether loading src/function_app.py gets past its src.db import. -/
def function_app_import_ok : Bool := missing_db_imports.isEmpty

/-! ## Theorems settling the claims -/

/-- C9: the claim states that loading the HTTP application module
succeeds because every name it imports from the database package is
defined and exported there.  Evaluating the import check refutes this:
twelve of the twenty-four names imported at src/function_app.py:34-59 are
not bound by src/src/db/__init__.py, so the very first of them makes
the module load raise ImportError and no endpoint is servable. -/
theorem function_app_db_imports_are_missing :
    missing_db_imports =
      ["get_session_by_id", "update_session_status", "end_session", "get_user_credits",
       "consume_session_credit", "get_user_preferences", "update_user_preferences",
       "get_user_sessions_for_history", "get_session_messages", "delete_user_history",
       "get_users_pending_deletion", "clear_deletion_schedule"] ∧
    function_app_import_ok = false := by
  constructor <;> rfl

/-- C1: the claim states that a syntactically valid registration with a
fresh email returns 201 with the new user's id.  Evaluating the register
handler refutes the 201 branch: the handler calls create_user with the
keyword argument store_history, which create_user (whose parameters are
email, password, display_name, wp_user_id) does not accept, so the call
raises TypeError and the blanket handler answers 500 "Registration
failed".  The 400 branches for an invalid email or short password and the
409 branch for a duplicate email do behave as claimed. -/
theorem register_valid_input_returns_500 :
    (register { users := [], next_id := 1 }
        { email := "a@b.com", password := "longenough1", display_name := none,
          store_history_consent := false }).1 =
      { status_code := 500, body := errBody "Registration failed" } ∧
    register_create_user_raises = true ∧
    (register { users := [], next_id := 1 }
        { email := "invalid-email", password := "longenough1", display_name := none,
          store_history_consent := false }).1.status_code = 400 ∧
    (register { users := [], next_id := 1 }
        { email := "a@b.com", password := "short", display_name := none,
          store_history_consent := false }).1.status_code = 400 ∧
    (register
        { users := [{ id := 1, email := "a@b.com", password_hash := none,
                      display_name := none, account_type := "freemium",
                      last_login := none }], next_id := 2 }
        { email := "a@b.com", password := "longenough1", display_name := none,
          store_history_consent := false }).1.status_code = 409 := by
  refine ⟨by decide, by decide, by decide, by decide, by decide⟩

/-- C7: a token minted by create_token for a user validates, before its
expiry, to a payload whose sub claim is that user id; a token whose
payload was tampered with fails signature verification, as does validating
under a different secret. -/
theorem create_validate_token_round_trip
    (secret user_id : String) (now tv : Int) (t : Jwt)
    (hs : secret ≠ "")
    (hc : create_token secret user_id now = Except.ok t)
    (hv : tv < now + 3600) :
    (validate_token secret t tv = Except.ok t.payload ∧ t.payload.sub = some user_id) ∧
    (∀ p2 : JwtPayload, p2 ≠ t.payload →
      validate_token secret { payload := p2, sig := t.sig } tv =
        Except.error { message := "Invalid token", status_code := 401 }) ∧
    (∀ secret2 : String, secret2 ≠ secret → secret2 ≠ "" →
      validate_token secret2 t tv =
        Except.error { message := "Invalid token", status_code := 401 }) := by
  unfold create_token at hc
  rw [if_neg hs] at hc
  simp only [Except.ok.injEq] at hc
  subst hc
  refine ⟨⟨?_, rfl⟩, ?_, ?_⟩
  · unfold validate_token
    rw [if_neg hs, if_pos rfl]
    simp only [TOKEN_EXPIRY_HOURS]
    rw [if_neg (by push_cast; omega)]
  · intro p2 hp2
    unfold validate_token
    rw [if_neg hs, if_neg (by simp; intro h; exact hp2 h.symm)]
  · intro secret2 hne hne2
    unfold validate_token
    rw [if_neg hne2, if_neg (by simp; intro h; exact absurd h.symm hne)]

/-- The payload and token produced by create_token "k" "alice" 0, used as
the concrete witness input for the round-trip theorem. -/
def jwtPayloadW : JwtPayload := { sub := some "alice", iat := some 0, exp := some 3600 }

/-- See jwtPayloadW. -/
def jwtW : Jwt := { payload := jwtPayloadW, sig := ("k", jwtPayloadW) }

/-- Witness for the round-trip theorem at secret "k", user "alice",
issue time 0 and validation time 600. -/
theorem create_validate_token_round_trip_witness :
    ("k" ≠ "" ∧ create_token "k" "alice" 0 = Except.ok jwtW ∧ (600 : Int) < 0 + 3600) ∧
    (validate_token "k" jwtW 600 = Except.ok jwtW.payload ∧
     jwtW.payload.sub = some "alice") :=
  ⟨⟨by decide, rfl, by decide⟩,
   (create_validate_token_round_trip "k" "alice" 0 600 jwtW (by decide) rfl (by decide)).1⟩

/-- Looking a session up after an id-preserving per-row update finds the
updated row. -/
lemma get_session_by_id_map_update (db : List SessionRec) (session_id : Nat)
    (f : SessionRec → SessionRec) (hf : ∀ t, (f t).id = t.id)
    (s : SessionRec) (h : get_session_by_id db session_id = some s) :
    get_session_by_id
      (db.map fun t => if t.id == session_id then f t else t) session_id =
      some (f s) := by
  induction db with
  | nil => simp [get_session_by_id] at h
  | cons a l ih =>
    unfold get_session_by_id at h ⊢
    rw [List.map_cons]
    rw [List.find?_cons] at h ⊢
    by_cases ha : (a.id == session_id) = true
    · simp only [ha] at h
      injection h with h
      subst h
      rw [if_pos ha]
      simp only [List.find?_cons, hf, ha]
    · simp only [ha, Bool.false_eq_true] at h
      rw [if_neg ha]
      simp only [List.find?_cons, ha, Bool.false_eq_true]
      exact ih h

/-- C2: a get on an owned session that is still stored "active" but whose
expires_at is at or before now answers 200 with status "expired" and
remaining_seconds = max(0, expires_at - now) (= 0 here), writes the
"expired" status back as a side effect of the read, and a second get after
expiry is idempotent: same response, same end state. -/
theorem get_session_lazy_expiry
    (db : List SessionRec) (user_id session_id : Nat) (now now2 : Int)
    (s : SessionRec) (e : Int)
    (hfind : get_session_by_id db session_id = some s)
    (howner : s.user_id = user_id)
    (hstatus : s.status = "active")
    (hexp : s.expires_at = some e)
    (hpass : e ≤ now) (_hpass2 : e ≤ now2)
    (resp : HttpResp) (db1 : List SessionRec)
    (hrun : get_session_endpoint db user_id session_id now = (resp, db1)) :
    resp.status_code = 200 ∧
    resp.body = [("session_id", js (toString s.id)), ("status", js "expired"),
                 ("session_type", jStrOpt s.session_type),
                 ("remaining_seconds", jn (max 0 (e - now))),
                 ("expires_at", jIntOpt s.expires_at),
                 ("started_at", jn s.created_at),
                 ("message", js "Session has expired")] ∧
    db1 = update_session_status db session_id "expired" now ∧
    get_session_by_id db1 session_id =
      some { s with status := "expired", updated_at := some now } ∧
    get_session_endpoint db1 user_id session_id now2 = (resp, db1) := by
  have hmax : max 0 (e - now) = 0 := by omega
  have hrun' : get_session_endpoint db user_id session_id now =
      ({ status_code := 200,
         body := [("session_id", js (toString s.id)), ("status", js "expired"),
                  ("session_type", jStrOpt s.session_type),
                  ("remaining_seconds", jn 0),
                  ("expires_at", jIntOpt s.expires_at),
                  ("started_at", jn s.created_at),
                  ("message", js "Session has expired")] },
       update_session_status db session_id "expired" now) := by
    simp only [get_session_endpoint, hfind]
    rw [if_neg (by rw [howner]; exact fun hcon => hcon rfl)]
    rw [if_pos ⟨hstatus, by rw [hexp]; simp only [expires_passed, decide_eq_true_eq]; omega⟩]
  have hpair := hrun'.symm.trans hrun
  injection hpair with hresp hdb
  subst hresp
  subst hdb
  have hfind1 : get_session_by_id (update_session_status db session_id "expired" now)
      session_id = some { s with status := "expired", updated_at := some now } :=
    get_session_by_id_map_update db session_id
      (fun t => { t with status := "expired", updated_at := some now })
      (fun t => rfl) s hfind
  refine ⟨rfl, by rw [hmax], rfl, hfind1, ?_⟩
  simp only [get_session_endpoint, hfind1]
  rw [if_neg (by simp only [howner]; exact fun hcon => hcon rfl)]
  rw [if_neg (by simp)]
  simp [hexp]

/-- The concrete session used by the lazy-expiry witness: active, created
at 100, expiring at 400. -/
def sessionExpW : SessionRec :=
  { id := 1, user_id := 7, mode := "intake", session_type := some "freemium",
    duration_minutes := 5, status := "active", created_at := 100,
    expires_at := some 400, ended_at := none, updated_at := none }

/-- Witness for the lazy-expiry theorem at time 450 (and 500 for the
repeated get). -/
theorem get_session_lazy_expiry_witness :
    (get_session_by_id [sessionExpW] 1 = some sessionExpW ∧
     sessionExpW.user_id = 7 ∧ sessionExpW.status = "active" ∧
     sessionExpW.expires_at = some 400 ∧ (400 : Int) ≤ 450 ∧ (400 : Int) ≤ 500) ∧
    (get_session_endpoint [sessionExpW] 7 1 450).1.status_code = 200 ∧
    get_session_endpoint (get_session_endpoint [sessionExpW] 7 1 450).2 7 1 500 =
      ((get_session_endpoint [sessionExpW] 7 1 450).1,
       (get_session_endpoint [sessionExpW] 7 1 450).2) :=
  ⟨⟨rfl, rfl, rfl, rfl, by decide, by decide⟩,
   (get_session_lazy_expiry [sessionExpW] 7 1 450 500 sessionExpW 400
      rfl rfl rfl rfl (by decide) (by decide) _ _ rfl).1,
   (get_session_lazy_expiry [sessionExpW] 7 1 450 500 sessionExpW 400
      rfl rfl rfl rfl (by decide) (by decide) _ _ rfl).2.2.2.2⟩

/-- A stored session in status "expired", owned by user 7; concrete input
refuting the claim that no operation leaves the expired state. -/
def sessionExpiredC3 : SessionRec :=
  { id := 1, user_id := 7, mode := "intake", session_type := some "freemium",
    duration_minutes := 5, status := "expired", created_at := 100,
    expires_at := some 400, ended_at := none, updated_at := none }

/-- C3 counterexample: the claim says no operation changes the status of a
session in status "expired" or "ended".  On the concrete expired session,
the end operation changes the stored status from "expired" to "ended": the
endpoint only rejects sessions already "ended" and end_session updates
unconditionally. -/
theorem end_on_expired_session_counterexample :
    sessionExpiredC3.status = "expired" ∧
    ((get_session_by_id (end_session_endpoint [sessionExpiredC3] 7 1 450).2 1).map
      (fun t => t.status)) = some "ended" ∧
    ((get_session_by_id (end_session_endpoint [sessionExpiredC3] 7 1 450).2 1).map
      (fun t => t.status)) ≠ some sessionExpiredC3.status :=
  ⟨rfl, by decide, by decide⟩

/-- C3 amended: "ended" is terminal through the API — the end operation
on an ended session answers 400 and leaves the store untouched, and the
get operation never changes the status of an expired or ended session —
but "expired" is not terminal under the end operation, which transitions
an expired session to "ended". -/
theorem terminal_states_amended
    (db : List SessionRec) (user_id session_id : Nat) (now : Int) (s : SessionRec)
    (hfind : get_session_by_id db session_id = some s)
    (howner : s.user_id = user_id) :
    (s.status = "ended" →
      end_session_endpoint db user_id session_id now =
        ({ status_code := 400, body := errBody "Session already ended" }, db)) ∧
    ((s.status = "expired" ∨ s.status = "ended") →
      (get_session_endpoint db user_id session_id now).2 = db) ∧
    (s.status = "expired" →
      (end_session_endpoint db user_id session_id now).1.status_code = 200 ∧
      get_session_by_id (end_session_endpoint db user_id session_id now).2 session_id =
        some { s with mode := "ended", status := "ended",
                      ended_at := some now, updated_at := some now }) := by
  refine ⟨?_, ?_, ?_⟩
  · intro h
    simp only [end_session_endpoint, hfind]
    rw [if_neg (by rw [howner]; exact fun hcon => hcon rfl), if_pos h]
  · intro h
    simp only [get_session_endpoint, hfind]
    rw [if_neg (by rw [howner]; exact fun hcon => hcon rfl)]
    rw [if_neg (by rcases h with h | h <;> simp [h])]
  · intro h
    have hfind' : db.find? (fun t => t.id == session_id) = some s := hfind
    have hend : end_session db session_id now =
        (some [("session_id", js (toString s.id)), ("status", js "ended"),
               ("duration_used_seconds", jn (now - s.created_at))],
         db.map fun t => if t.id == session_id then
           { t with mode := "ended", status := "ended",
                    ended_at := some now, updated_at := some now } else t) := by
      unfold end_session
      rw [hfind']
    have hlook := get_session_by_id_map_update db session_id
      (fun t => { t with mode := "ended", status := "ended",
                         ended_at := some now, updated_at := some now })
      (fun t => rfl) s hfind
    simp only [end_session_endpoint, hfind]
    rw [if_neg (by rw [howner]; exact fun hcon => hcon rfl)]
    rw [if_neg (by simp [h]), hend]
    exact ⟨rfl, hlook⟩

/-- A stored session in status "ended", used by the C3 witness. -/
def sessionEndedC3 : SessionRec :=
  { id := 1, user_id := 7, mode := "ended", session_type := some "freemium",
    duration_minutes := 5, status := "ended", created_at := 100,
    expires_at := some 400, ended_at := some 420, updated_at := some 420 }

/-- Witness for the amended terminal-states theorem: an ended session is
rejected with 400 and untouched; an expired session is ended with 200. -/
theorem terminal_states_amended_witness :
    (get_session_by_id [sessionEndedC3] 1 = some sessionEndedC3 ∧
     sessionEndedC3.user_id = 7 ∧ sessionEndedC3.status = "ended" ∧
     end_session_endpoint [sessionEndedC3] 7 1 450 =
       ({ status_code := 400, body := errBody "Session already ended" },
        [sessionEndedC3])) ∧
    (get_session_by_id [sessionExpiredC3] 1 = some sessionExpiredC3 ∧
     sessionExpiredC3.user_id = 7 ∧ sessionExpiredC3.status = "expired" ∧
     (end_session_endpoint [sessionExpiredC3] 7 1 450).1.status_code = 200) :=
  ⟨⟨rfl, rfl, rfl,
    (terminal_states_amended [sessionEndedC3] 7 1 450 sessionEndedC3 rfl rfl).1 rfl⟩,
   ⟨rfl, rfl, rfl,
    ((terminal_states_amended [sessionExpiredC3] 7 1 450 sessionExpiredC3 rfl rfl).2.2
      rfl).1⟩⟩

/-- The empty entitlements table; concrete input for the grant
counterexample. -/
def entStateC4 : EntState := { entitlements := [], next_id := 1 }

/-- C4 counterexample: the claim says that for every order_reference the
second grant adds nothing and returns the original result with
already_processed=true.  Granting 1 credit twice under order "ord-1": the
first call returns sessions_added = 1, the second returns
sessions_added = 0 and no new_balance, so the second result is not the
original result with already_processed set.  And under the empty-string
order_reference, Python's truthiness guard skips the idempotency lookup
entirely: the second call inserts a second entitlement — credits are
added twice — and reports already_processed = false. -/
theorem grant_repeat_result_counterexample :
    ((add_paid_credits entStateC4 7 1 "woocommerce" (some "ord-1") none 0).1.sessions_added
      = 1 ∧
    (add_paid_credits (add_paid_credits entStateC4 7 1 "woocommerce" (some "ord-1") none 0).2
        7 1 "woocommerce" (some "ord-1") none 0).1 =
      { entitlement_id := 1, sessions_added := 0, new_balance := none,
        already_processed := true } ∧
    (add_paid_credits (add_paid_credits entStateC4 7 1 "woocommerce" (some "ord-1") none 0).2
        7 1 "woocommerce" (some "ord-1") none 0).1 ≠
      { (add_paid_credits entStateC4 7 1 "woocommerce" (some "ord-1") none 0).1 with
          already_processed := true }) ∧
    ((add_paid_credits (add_paid_credits entStateC4 7 1 "woocommerce" (some "") none 0).2
        7 1 "woocommerce" (some "") none 0).1.already_processed = false ∧
    (add_paid_credits (add_paid_credits entStateC4 7 1 "woocommerce" (some "") none 0).2
        7 1 "woocommerce" (some "") none 0).1.sessions_added = 1 ∧
    (add_paid_credits (add_paid_credits entStateC4 7 1 "woocommerce" (some "") none 0).2
        7 1 "woocommerce" (some "") none 0).2.entitlements.length = 2) :=
  ⟨⟨by decide, by decide, by decide⟩, ⟨by decide, by decide, by decide⟩⟩

/-- C4 amended: granting twice with the same non-empty order_reference
(an empty string is falsy in Python, so the code treats it as no
reference at all and inserts again) adds credits only once — the second
call inserts nothing, leaves the state (hence every balance) unchanged,
and returns the original entitlement's id with already_processed = true
and sessions_added = 0; it does not repeat the original sessions_added
count. -/
theorem grant_idempotent_amended
    (st : EntState) (user_id n : Nat) (source r : String)
    (valid_days : Option Nat) (now : Int)
    (hr : r ≠ "")
    (hfresh : st.entitlements.find? (fun e => e.order_reference == some r) = none)
    (r1 : AddCreditsResult) (st1 : EntState)
    (h1 : add_paid_credits st user_id n source (some r) valid_days now = (r1, st1))
    (r2 : AddCreditsResult) (st2 : EntState)
    (h2 : add_paid_credits st1 user_id n source (some r) valid_days now = (r2, st2)) :
    st2 = st1 ∧ r2.already_processed = true ∧ r2.sessions_added = 0 ∧
    r2.entitlement_id = r1.entitlement_id ∧
    st1.entitlements.length = st.entitlements.length + 1 ∧
    entitlements_total st2 user_id = entitlements_total st1 user_id := by
  simp only [add_paid_credits, hr, if_false, hfresh] at h1
  injection h1 with hr1 hst1
  subst hr1
  subst hst1
  simp only [add_paid_credits, hr, if_false, List.find?_append, hfresh, Option.none_or,
    List.find?_cons, List.find?_nil, beq_self_eq_true] at h2
  injection h2 with hr2 hst2
  subst hr2
  subst hst2
  refine ⟨rfl, rfl, rfl, rfl, by simp, rfl⟩

/-- Witness for the amended grant-idempotency theorem: two grants of one
credit under order "ord-1" starting from the empty table. -/
theorem grant_idempotent_amended_witness :
    ("ord-1" ≠ "" ∧
     entStateC4.entitlements.find?
        (fun e => e.order_reference == some "ord-1") = none) ∧
    ((add_paid_credits (add_paid_credits entStateC4 7 1 "woocommerce" (some "ord-1") none 0).2
        7 1 "woocommerce" (some "ord-1") none 0).2 =
      (add_paid_credits entStateC4 7 1 "woocommerce" (some "ord-1") none 0).2 ∧
     (add_paid_credits (add_paid_credits entStateC4 7 1 "woocommerce" (some "ord-1") none 0).2
        7 1 "woocommerce" (some "ord-1") none 0).1.already_processed = true) :=
  ⟨⟨by decide, rfl⟩,
   (grant_idempotent_amended entStateC4 7 1 "woocommerce" "ord-1" none 0 (by decide) rfl
      _ _ rfl _ _ rfl).1,
   (grant_idempotent_amended entStateC4 7 1 "woocommerce" "ord-1" none 0 (by decide) rfl
      _ _ rfl _ _ rfl).2.1⟩

/-- C5: toggling the history preference from true to false schedules
deletion at now plus the 30-day grace period, and from false to true
clears any pending schedule, the PATCH endpoint answering 200 with the
updated store_history state in both cases. -/
theorem preferences_toggle_schedules_and_clears (p : UserPrefs) (now : Int) :
    (p.store_history = true →
      update_user_preferences_endpoint (some p) (some (jb false)) now =
        ({ status_code := 200,
           body := [("store_history", jb false),
                    ("store_history_changed_at", jn now),
                    ("history_deletion_scheduled_at",
                     jn (now + HISTORY_GRACE_PERIOD_SECONDS))] },
         some { store_history := false, store_history_changed_at := some now,
                history_deletion_scheduled_at :=
                  some (now + HISTORY_GRACE_PERIOD_SECONDS) })) ∧
    (p.store_history = false →
      update_user_preferences_endpoint (some p) (some (jb true)) now =
        ({ status_code := 200,
           body := [("store_history", jb true),
                    ("store_history_changed_at", jn now),
                    ("history_deletion_scheduled_at", jnull)] },
         some { store_history := true, store_history_changed_at := some now,
                history_deletion_scheduled_at := none })) := by
  constructor
  · intro h
    unfold update_user_preferences_endpoint update_user_preferences
    simp [h, jb, jn, jIntOpt]
  · intro h
    unfold update_user_preferences_endpoint update_user_preferences
    simp [h, jb, jn, jnull, jIntOpt]

/-- Witness for the preference-toggle theorem: a user with history on and
one with history off plus a pending schedule, both patched at time
1000. -/
theorem preferences_toggle_witness :
    (({ store_history := true, store_history_changed_at := none,
        history_deletion_scheduled_at := none : UserPrefs }).store_history = true ∧
      update_user_preferences_endpoint
        (some { store_history := true, store_history_changed_at := none,
                history_deletion_scheduled_at := none }) (some (jb false)) 1000 =
        ({ status_code := 200,
           body := [("store_history", jb false),
                    ("store_history_changed_at", jn 1000),
                    ("history_deletion_scheduled_at",
                     jn (1000 + HISTORY_GRACE_PERIOD_SECONDS))] },
         some { store_history := false, store_history_changed_at := some 1000,
                history_deletion_scheduled_at :=
                  some (1000 + HISTORY_GRACE_PERIOD_SECONDS) })) ∧
    (({ store_history := false, store_history_changed_at := none,
        history_deletion_scheduled_at := some 99 : UserPrefs }).store_history = false ∧
      update_user_preferences_endpoint
        (some { store_history := false, store_history_changed_at := none,
                history_deletion_scheduled_at := some 99 }) (some (jb true)) 1000 =
        ({ status_code := 200,
           body := [("store_history", jb true),
                    ("store_history_changed_at", jn 1000),
                    ("history_deletion_scheduled_at", jnull)] },
         some { store_history := true, store_history_changed_at := some 1000,
                history_deletion_scheduled_at := none })) :=
  ⟨⟨rfl, (preferences_toggle_schedules_and_clears
            { store_history := true, store_history_changed_at := none,
              history_deletion_scheduled_at := none } 1000).1 rfl⟩,
   ⟨rfl, (preferences_toggle_schedules_and_clears
            { store_history := false, store_history_changed_at := none,
              history_deletion_scheduled_at := some 99 } 1000).2 rfl⟩⟩

/-- C6: with zero free and zero paid credits remaining, the session
creation endpoint answers 402 with error NO_CREDITS and the remaining
balances, consume reports failure, and the whole state — credits and
sessions table — is left untouched. -/
theorem create_session_no_credits_402
    (st : AppState) (user_id : Nat) (now : Int)
    (hfree : free_remaining st.credits = 0)
    (hpaid : paid_remaining st.credits = 0)
    (resp : HttpResp) (st1 : AppState)
    (hrun : create_session_endpoint st user_id now = (resp, st1)) :
    resp.status_code = 402 ∧
    resp.body = [("error", js "NO_CREDITS"),
                 ("message", js "No sessions available. Please purchase more."),
                 ("free_remaining", jn 0), ("paid_remaining", jn 0)] ∧
    st1 = st ∧
    (consume_session_credit st.credits).1.success = false ∧
    (consume_session_credit st.credits).2 = st.credits := by
  have hconsume : use_session_with_duration st.credits =
      ({ success := false, session_type := none, duration_minutes := none,
         message := "No credits available" }, st.credits) := by
    unfold use_session_with_duration
    rw [if_neg (by omega), if_neg (by omega)]
  have hrun' : create_session_endpoint st user_id now =
      ({ status_code := 402,
         body := [("error", js "NO_CREDITS"),
                  ("message", js "No sessions available. Please purchase more."),
                  ("free_remaining", jn 0), ("paid_remaining", jn 0)] }, st) := by
    unfold create_session_endpoint consume_session_credit
    rw [hconsume]
    simp [get_user_credits, total_available, hfree, hpaid]
  have hpair := hrun'.symm.trans hrun
  injection hpair with hresp hst
  subst hresp
  subst hst
  refine ⟨rfl, rfl, rfl, ?_, ?_⟩
  · unfold consume_session_credit
    rw [hconsume]
  · unfold consume_session_credit
    rw [hconsume]

/-- Witness for the no-credits theorem: a user whose freemium allowance
and paid credits are both fully used. -/
theorem create_session_no_credits_402_witness :
    (free_remaining { freemium_limit := 3, freemium_used := 3, paid_total := 2,
                      paid_used := 2 : CreditState } = 0 ∧
     paid_remaining { freemium_limit := 3, freemium_used := 3, paid_total := 2,
                      paid_used := 2 : CreditState } = 0) ∧
    ((create_session_endpoint
        { credits := { freemium_limit := 3, freemium_used := 3, paid_total := 2,
                       paid_used := 2 },
          sessions := [], next_session_id := 1 } 7 100).1.status_code = 402 ∧
     (create_session_endpoint
        { credits := { freemium_limit := 3, freemium_used := 3, paid_total := 2,
                       paid_used := 2 },
          sessions := [], next_session_id := 1 } 7 100).2 =
       { credits := { freemium_limit := 3, freemium_used := 3, paid_total := 2,
                      paid_used := 2 },
         sessions := [], next_session_id := 1 }) :=
  ⟨⟨rfl, rfl⟩,
   (create_session_no_credits_402
      { credits := { freemium_limit := 3, freemium_used := 3, paid_total := 2,
                     paid_used := 2 },
        sessions := [], next_session_id := 1 } 7 100 rfl rfl _ _ rfl).1,
   (create_session_no_credits_402
      { credits := { freemium_limit := 3, freemium_used := 3, paid_total := 2,
                     paid_used := 2 },
        sessions := [], next_session_id := 1 } 7 100 rfl rfl _ _ rfl).2.2.1⟩

/-- C8: credit consumption is a single atomic storage-level operation
(§5), so any interleaving of two concurrent consume calls is one of the
two sequential orders, and the two callers run the same operation, so the
orders coincide: from any state with exactly one remaining credit, the
first call succeeds, the second fails and changes nothing, and the final
balance is 0 — exactly one success, no double-spend, no lost update. -/
theorem consume_one_credit_exactly_one_success
    (c : CreditState) (h : total_available c = 1)
    (r1 : ConsumeResult) (c1 : CreditState)
    (h1 : use_session_with_duration c = (r1, c1))
    (r2 : ConsumeResult) (c2 : CreditState)
    (h2 : use_session_with_duration c1 = (r2, c2)) :
    r1.success = true ∧ r2.success = false ∧ c2 = c1 ∧ total_available c1 = 0 := by
  have hn : (c.freemium_limit - c.freemium_used) + (c.paid_total - c.paid_used) = 1 := h
  by_cases hf : free_remaining c > 0
  · have hfn : c.freemium_limit - c.freemium_used > 0 := hf
    have hf1 : free_remaining { c with freemium_used := c.freemium_used + 1 } = 0 := by
      show c.freemium_limit - (c.freemium_used + 1) = 0
      omega
    have hp1 : paid_remaining { c with freemium_used := c.freemium_used + 1 } = 0 := by
      show c.paid_total - c.paid_used = 0
      omega
    unfold use_session_with_duration at h1
    rw [if_pos hf] at h1
    cases h1
    unfold use_session_with_duration at h2
    rw [if_neg (by rw [hf1]; omega), if_neg (by rw [hp1]; omega)] at h2
    cases h2
    refine ⟨rfl, rfl, rfl, ?_⟩
    unfold total_available
    rw [hf1, hp1]
  · have hfn : ¬ c.freemium_limit - c.freemium_used > 0 := hf
    have hpf : paid_remaining c > 0 := by
      show c.paid_total - c.paid_used > 0
      omega
    have hf1 : free_remaining { c with paid_used := c.paid_used + 1 } = 0 := by
      show c.freemium_limit - c.freemium_used = 0
      omega
    have hp1 : paid_remaining { c with paid_used := c.paid_used + 1 } = 0 := by
      show c.paid_total - (c.paid_used + 1) = 0
      omega
    unfold use_session_with_duration at h1
    rw [if_neg hf, if_pos hpf] at h1
    cases h1
    unfold use_session_with_duration at h2
    rw [if_neg (by rw [hf1]; omega), if_neg (by rw [hp1]; omega)] at h2
    cases h2
    refine ⟨rfl, rfl, rfl, ?_⟩
    unfold total_available
    rw [hf1, hp1]

/-- Witness for the one-credit concurrency theorem: one free credit
remaining. -/
theorem consume_one_credit_witness :
    (total_available { freemium_limit := 3, freemium_used := 2, paid_total := 0,
                       paid_used := 0 : CreditState } = 1) ∧
    ((use_session_with_duration
        { freemium_limit := 3, freemium_used := 2, paid_total := 0,
          paid_used := 0 }).1.success = true ∧
     (use_session_with_duration
        (use_session_with_duration
          { freemium_limit := 3, freemium_used := 2, paid_total := 0,
            paid_used := 0 }).2).1.success = false) :=
  ⟨rfl,
   (consume_one_credit_exactly_one_success
      { freemium_limit := 3, freemium_used := 2, paid_total := 0, paid_used := 0 }
      rfl _ _ rfl _ _ rfl).1,
   (consume_one_credit_exactly_one_success
      { freemium_limit := 3, freemium_used := 2, paid_total := 0, paid_used := 0 }
      rfl _ _ rfl _ _ rfl).2.1⟩

/-- C10: a login naming an existing user whose stored password credential
is NULL or malformed answers 401 invalid credentials: a NULL or empty
hash short-circuits before verification, and verify_password returns
false — rather than raising or succeeding — on any malformed hash. -/
theorem login_null_or_malformed_hash_is_401
    (st : UsersState) (secret email password : String) (now : Int) (u : UserRec)
    (hu : get_user_by_email st (normalize_email email) = some u)
    (hpw : password ≠ "")
    (hmail : normalize_email email ≠ "")
    (hbad : u.password_hash = none ∨
            ∃ raw, u.password_hash = some (StoredHash.malformed raw)) :
    login st secret email password now =
      ({ status_code := 401, body := errBody "Invalid email or password" }, st) ∧
    (∀ pw raw, verify_password pw (StoredHash.malformed raw) = false) := by
  constructor
  · unfold login
    rw [if_neg (by push_neg; exact ⟨hmail, hpw⟩), hu]
    rcases hbad with hnone | ⟨raw, hraw⟩
    · simp [hashFalsy, hnone]
    · by_cases hempty : (raw == "") = true
      · simp [hashFalsy, hraw, hempty]
      · simp [hashFalsy, hraw, hempty, verify_password, bcrypt_checkpw]
  · intro pw raw
    rfl

/-- Witness for the null/malformed-hash login theorem: a user synced
without a password and validated at a non-empty password. -/
theorem login_null_hash_witness :
    (get_user_by_email
        { users := [{ id := 3, email := "x@y.com", password_hash := none,
                      display_name := none, account_type := "freemium",
                      last_login := none }], next_id := 9 } (normalize_email "x@y.com") =
      some { id := 3, email := "x@y.com", password_hash := none,
             display_name := none, account_type := "freemium", last_login := none } ∧
     "pw123456" ≠ "" ∧ normalize_email "x@y.com" ≠ "") ∧
    login { users := [{ id := 3, email := "x@y.com", password_hash := none,
                        display_name := none, account_type := "freemium",
                        last_login := none }], next_id := 9 }
        "k" "x@y.com" "pw123456" 0 =
      ({ status_code := 401, body := errBody "Invalid email or password" },
       { users := [{ id := 3, email := "x@y.com", password_hash := none,
                     display_name := none, account_type := "freemium",
                     last_login := none }], next_id := 9 }) :=
  ⟨⟨by decide, by decide, by decide⟩,
   (login_null_or_malformed_hash_is_401
      { users := [{ id := 3, email := "x@y.com", password_hash := none,
                    display_name := none, account_type := "freemium",
                    last_login := none }], next_id := 9 }
      "k" "x@y.com" "pw123456" 0
      { id := 3, email := "x@y.com", password_hash := none, display_name := none,
        account_type := "freemium", last_login := none }
      (by decide) (by decide) (by decide) (Or.inl rfl)).1⟩

end GdoApi
